import Mathlib

/-!
Shallow embedding of the core logic of `src/BMI.py` (a BMI / health-metrics
calculator): the pure metric functions (`calculate_bmi`, `calculate_bmr`,
`calculate_ideal_weight_range`, `get_bmi_classification`,
`generate_diet_plan`), and the history store
(`_load_history`, `_save_history`, `_calculate_statistics`).

Python floats are modelled as exact rationals (ℚ).  Python's built-in
`round` rounds half to even ("banker's rounding"); `pyRound` embeds it,
and `roundTo n` embeds `round(x, n)`.  File I/O (`json.load` / `json.dump`
on `bmi_history.json`) is modelled by an explicit `Disk` state: the file
can be absent, empty, unreadable (IOError), malformed (JSONDecodeError),
or hold a well-formed list of entries.
-/

namespace BMI

/-- Python's `round(x)`: nearest integer, ties to even. -/
def pyRound (q : ℚ) : ℤ :=
  if q - ⌊q⌋ < 1/2 then ⌊q⌋
  else if (1/2 : ℚ) < q - ⌊q⌋ then ⌊q⌋ + 1
  else if ⌊q⌋ % 2 = 0 then ⌊q⌋ else ⌊q⌋ + 1

/-- Python's `round(x, n)`: round to `n` decimal digits, ties to even. -/
def roundTo (n : ℕ) (q : ℚ) : ℚ :=
  (pyRound (q * (10 : ℚ) ^ n) : ℚ) / (10 : ℚ) ^ n

/-- `calculate_bmi` (src/BMI.py lines 32-44): raises `ValueError` (modelled
as `none`) when `height_cm <= 0 or weight_kg <= 0`; otherwise
`round(weight_kg / (height_cm/100)**2, 2)`. -/
def calculate_bmi (weight_kg height_cm : ℚ) : Option ℚ :=
  if height_cm ≤ 0 ∨ weight_kg ≤ 0 then none
  else
    let height_m := height_cm / 100
    some (roundTo 2 (weight_kg / height_m ^ 2))

/-- `calculate_bmr` (src/BMI.py lines 46-62): Mifflin-St Jeor,
`base_bmr = 10*W + 6.25*H - 5*A`, `+5` for `'Male'`, `-161` for
`'Female'`, unadjusted otherwise, then `round(bmr)`. -/
def calculate_bmr (weight_kg height_cm : ℚ) (age_years : ℤ) (gender : String) : ℤ :=
  let base_bmr := 10 * weight_kg + (6.25 : ℚ) * height_cm - 5 * (age_years : ℚ)
  let bmr :=
    if gender = "Male" then base_bmr + 5
    else if gender = "Female" then base_bmr - 161
    else base_bmr
  pyRound bmr

/-- `calculate_ideal_weight_range` (src/BMI.py lines 64-76):
`(round(18.5*(H/100)**2, 1), round(24.9*(H/100)**2, 1))`. -/
def calculate_ideal_weight_range (height_cm : ℚ) : ℚ × ℚ :=
  let height_m := height_cm / 100
  let low_weight := (18.5 : ℚ) * height_m ^ 2
  let high_weight := (24.9 : ℚ) * height_m ^ 2
  (roundTo 1 low_weight, roundTo 1 high_weight)

/-- The `(category, color, advice)` triple returned by
`get_bmi_classification`. -/
structure Classification where
  category : String
  color : String
  advice : String
deriving DecidableEq

/-- `DARK_PINK` (src/BMI.py line 29). -/
def DARK_PINK : String := "#e60073"

/-- `get_bmi_classification` (src/BMI.py lines 78-100): the exact
`if bmi < 18.5 / elif 18.5 <= bmi <= 24.9 / elif 25.0 <= bmi <= 29.9 /
else` chain of the source, comments included (the `else` branch carries
the source comment `# bmi >= 30.0`). -/
def get_bmi_classification (bmi : ℚ) : Classification :=
  if bmi < (18.5 : ℚ) then
    ⟨"Underweight", DARK_PINK, "Focus on a nutrient-rich diet to gain weight safely."⟩
  else if (18.5 : ℚ) ≤ bmi ∧ bmi ≤ (24.9 : ℚ) then
    ⟨"Normal Weight", "#28a745", "Maintain your current healthy habits. Excellent!"⟩
  else if (25.0 : ℚ) ≤ bmi ∧ bmi ≤ (29.9 : ℚ) then
    ⟨"Overweight", "#fd7e14", "Consider consulting a doctor or dietitian to manage weight."⟩
  else
    ⟨"Obese", "#dc3545", "It is highly recommended to seek professional health guidance immediately."⟩

/-- The dict returned by `generate_diet_plan`. -/
structure DietPlan where
  title : String
  goal_kcal : ℤ
  focus : String
  macros : String
  suggestions : List String
deriving DecidableEq

/-- `generate_diet_plan` (src/BMI.py lines 102-152). -/
def generate_diet_plan (category : String) (bmr : ℤ) (age : ℤ) : DietPlan :=
  let macroDefault := "Protein: 25%, Carbs: 45%, Fats: 30%"
  let macroOver50 := "Protein: 30%, Carbs: 40%, Fats: 30% (Higher protein supports muscle mass retention)"
  let macroSplit := if 50 ≤ age then macroOver50 else macroDefault
  if category = "Overweight" ∨ category = "Obese" then
    let daily_goal_kcal := max 1200 (bmr - 500)
    { title := "Weight Management Plan (" ++ category ++ ")"
      goal_kcal := daily_goal_kcal
      focus := "Your primary goal is to safely achieve a sustainable calorie deficit to promote weight loss. We estimate your daily goal to be **" ++ toString daily_goal_kcal ++ " kcal**."
      macros := macroSplit
      suggestions :=
        [ "Prioritize lean proteins (chicken breast, fish, tofu) and high-fiber foods.",
          "Choose complex carbohydrates (oats, brown rice, whole wheat) over simple sugars.",
          "Focus on large portions of non-starchy vegetables at every meal.",
          "Drink plenty of water (2-3 liters) and limit sugary drinks." ] }
  else if category = "Underweight" then
    let daily_goal_kcal := bmr + 300
    { title := "Healthy Weight Gain Plan (" ++ category ++ ")"
      goal_kcal := daily_goal_kcal
      focus := "Your goal is to increase caloric intake safely and nutrient-densely to reach a healthy weight. We estimate your daily goal to be **" ++ toString daily_goal_kcal ++ " kcal**."
      macros := macroSplit
      suggestions :=
        [ "Eat 5-6 smaller, frequent meals throughout the day.",
          "Incorporate healthy fats (nuts, seeds, avocado, olive oil) and starches (potatoes, sweet potatoes).",
          "Focus on protein and complex carbs post-workout to support muscle and mass gain.",
          "Use full-fat dairy or dairy alternatives for extra calories." ] }
  else
    let daily_goal_kcal := bmr + 200
    { title := "Maintenance & Wellness Plan (" ++ category ++ ")"
      goal_kcal := daily_goal_kcal
      focus := "Continue your balanced eating habits to maintain your healthy weight. We estimate your daily goal to be around **" ++ toString daily_goal_kcal ++ " kcal**."
      macros := macroSplit
      suggestions :=
        [ "Maintain diversity: eat a wide range of colorful fruits and vegetables.",
          "Balance protein, fats, and carbs in every meal.",
          "Limit processed snacks and excessive alcohol.",
          "Stay consistent with portion sizes based on your activity level." ] }

/-- One record of `bmi_history.json` (the dict built in
`calculate_bmi_gui`, src/BMI.py lines 491-498). -/
structure HistoryEntry where
  name : String
  date : String
  weight_kg : ℚ
  height_cm : ℚ
  bmi : ℚ
  category : String
deriving DecidableEq

/-- The possible states of the persisted history file `bmi_history.json`,
as `_load_history` distinguishes them: absent, present but empty
(size 0), unreadable (IOError), present but not valid JSON
(JSONDecodeError), or a well-formed list of entries. -/
inductive Disk where
  | absent
  | emptyFile
  | unreadable
  | malformed
  | content (entries : List HistoryEntry)
deriving DecidableEq

/-- `_load_history` (src/BMI.py lines 182-190): returns the parsed list
when the file exists, is non-empty and parses; `[]` on absence, size 0,
IOError or JSONDecodeError. -/
def load_history : Disk → List HistoryEntry
  | .content es => es
  | _ => []

/-- The history store's state: the in-memory list `self.history` and the
on-disk file. -/
structure StoreState where
  history : List HistoryEntry
  disk : Disk
deriving DecidableEq

/-- `_save_history` (src/BMI.py lines 192-199): appends `entry` to
`self.history`, then tries to dump the whole list to the file.
`writeOk` models whether the `open`/`json.dump` succeeds; the returned
`Bool` is `true` when the IOError handler fires (the
`messagebox.showerror` storage-error notification). The append is not
rolled back on failure. -/
def save_history (entry : HistoryEntry) (s : StoreState) (writeOk : Bool) :
    StoreState × Bool :=
  let newHistory := s.history ++ [entry]
  if writeOk then (⟨newHistory, .content newHistory⟩, false)
  else (⟨newHistory, s.disk⟩, true)

/-- A run of `_save_history` calls, one per entry in order, with every
write succeeding. -/
def save_all (entries : List HistoryEntry) (s : StoreState) : StoreState :=
  entries.foldl (fun st e => (save_history e st true).1) s

/-- The dict returned by `_calculate_statistics`: `count` plus the three
formatted (or `'N/A'`) strings. -/
structure Stats where
  count : ℕ
  avg_bmi : String
  min_bmi : String
  max_bmi : String
deriving DecidableEq

/-- Renders a non-negative number of hundredths as Python's `f"{x:.2f}"`
does the digits: integer part, a dot, two fractional digits. -/
def fmt2Nat (n : ℕ) : String :=
  toString (n / 100) ++ "." ++ (if n % 100 < 10 then "0" else "") ++ toString (n % 100)

/-- Python's `f"{x:.2f}"` on an exact rational: round half to even at two
decimal digits, then render. -/
def fmt2 (q : ℚ) : String :=
  if q < 0 then "-" ++ fmt2Nat (pyRound (-(q * 100))).toNat
  else fmt2Nat (pyRound (q * 100)).toNat

/-- `_calculate_statistics` (src/BMI.py lines 529-546): the `'N/A'`
sentinel dict on empty history; otherwise count, `f"{sum/len:.2f}"`,
`f"{min:.2f}"`, `f"{max:.2f}"` over the entries' `bmi` fields. -/
def calculate_statistics : List HistoryEntry → Stats
  | [] => ⟨0, "N/A", "N/A", "N/A"⟩
  | e :: rest =>
    let bmis := (e :: rest).map (·.bmi)
    { count := bmis.length
      avg_bmi := fmt2 (bmis.sum / (bmis.length : ℚ))
      min_bmi := fmt2 ((rest.map (·.bmi)).foldl min e.bmi)
      max_bmi := fmt2 ((rest.map (·.bmi)).foldl max e.bmi) }

end BMI

/-- C1: the classification chain leaves a gap. The claim says every bmi in
[18.5, 25.0) is classified Normal, but the source (`if bmi < 18.5 / elif
18.5 <= bmi <= 24.9 / elif 25.0 <= bmi <= 29.9 / else`) sends
bmi = 24.95 to the `else` branch — the branch its own comment labels
`# bmi >= 30.0` — and returns "Obese". -/
theorem claim1_gap_misclassified :
    (18.5 : ℚ) ≤ 2495 / 100 ∧ (2495 / 100 : ℚ) < 25 ∧
    (BMI.get_bmi_classification (2495 / 100)).category = "Obese" ∧
    "Obese" ≠ "Normal Weight" := by
  refine ⟨by norm_num, by norm_num, ?_, by decide⟩
  norm_num [BMI.get_bmi_classification]

/-- C2 counterexample: the claim's concrete value is wrong.
`calculate_bmr(70, 175, 30, "Male")` is `round(1648.75) = 1649`,
not 1674. -/
theorem claim2_counterexample :
    BMI.calculate_bmr 70 175 30 "Male" = 1649 ∧ (1649 : ℤ) ≠ 1674 := by
  refine ⟨?_, by decide⟩
  norm_num [BMI.calculate_bmr, BMI.pyRound]

/-- C2 (amended): `calculate_bmr` is Mifflin-St Jeor —
`round(10·W + 6.25·H − 5·A + adj)` with adj = +5 for "Male", −161 for
"Female", 0 otherwise — and `calculate_bmr(70, 175, 30, "Male") = 1649`. -/
theorem claim2_bmr_mifflin :
    (∀ (w h : ℚ) (a : ℤ) (g : String),
        BMI.calculate_bmr w h a g =
          BMI.pyRound (10 * w + (6.25 : ℚ) * h - 5 * (a : ℚ) +
            (if g = "Male" then 5 else if g = "Female" then -161 else 0))) ∧
    BMI.calculate_bmr 70 175 30 "Male" = 1649 := by
  constructor
  · intro w h a g
    unfold BMI.calculate_bmr
    split_ifs <;> (congr 1 <;> ring_nf)
  · norm_num [BMI.calculate_bmr, BMI.pyRound]

/-- C3 counterexample: the claim's concrete value is wrong.
24.9·(175/100)² = 76.25625 rounds at one decimal to 76.3, so
`calculate_ideal_weight_range(175) = (56.7, 76.3)`, not (56.7, 76.2). -/
theorem claim3_counterexample :
    BMI.calculate_ideal_weight_range 175 = (567 / 10, 763 / 10) ∧
    ((567 / 10 : ℚ), (763 / 10 : ℚ)) ≠ ((567 / 10 : ℚ), (762 / 10 : ℚ)) := by
  constructor
  · norm_num [BMI.calculate_ideal_weight_range, BMI.roundTo, BMI.pyRound, Prod.ext_iff]
  · simp only [ne_eq, Prod.mk.injEq, not_and]
    intro _
    norm_num

/-- C3 (amended): for every height,
`calculate_ideal_weight_range(H) = (round(18.5·(H/100)², 1),
round(24.9·(H/100)², 1))`; in particular at 175 cm it is (56.7, 76.3). -/
theorem claim3_ideal_weight :
    (∀ h : ℚ, BMI.calculate_ideal_weight_range h =
        (BMI.roundTo 1 ((18.5 : ℚ) * (h / 100) ^ 2),
         BMI.roundTo 1 ((24.9 : ℚ) * (h / 100) ^ 2))) ∧
    BMI.calculate_ideal_weight_range 175 = (567 / 10, 763 / 10) := by
  refine ⟨fun h => rfl, ?_⟩
  norm_num [BMI.calculate_ideal_weight_range, BMI.roundTo, BMI.pyRound, Prod.ext_iff]

/-- C4: `calculate_bmi` fails exactly on non-positive weight or height;
on positive inputs it returns `round(W/(H/100)², 2)`; at (70, 175) it
returns 22.86, which classifies as "Normal Weight". -/
theorem claim4_calculate_bmi :
    (∀ w h : ℚ, BMI.calculate_bmi w h = none ↔ (w ≤ 0 ∨ h ≤ 0)) ∧
    (∀ w h : ℚ, 0 < w → 0 < h →
        BMI.calculate_bmi w h = some (BMI.roundTo 2 (w / (h / 100) ^ 2))) ∧
    BMI.calculate_bmi 70 175 = some (2286 / 100) ∧
    (BMI.get_bmi_classification (2286 / 100)).category = "Normal Weight" := by
  refine ⟨?_, ?_, ?_, ?_⟩
  · intro w h
    unfold BMI.calculate_bmi
    split
    · rename_i hcond
      simp only [true_iff]
      tauto
    · rename_i hcond
      push_neg at hcond
      simp only [reduceCtorEq, false_iff, not_or, not_le]
      exact ⟨hcond.2, hcond.1⟩
  · intro w h hw hh
    unfold BMI.calculate_bmi
    rw [if_neg]
    push_neg
    exact ⟨hh, hw⟩
  · norm_num [BMI.calculate_bmi, BMI.roundTo, BMI.pyRound]
  · norm_num [BMI.get_bmi_classification]

/-- C4 witness: the positive-input branch of `claim4_calculate_bmi`
instantiated at weight 70 kg, height 175 cm. -/
theorem claim4_witness :
    (0 : ℚ) < 70 ∧ (0 : ℚ) < 175 ∧
    BMI.calculate_bmi 70 175 = some (BMI.roundTo 2 (70 / ((175 : ℚ) / 100) ^ 2)) :=
  ⟨by norm_num, by norm_num,
    claim4_calculate_bmi.2.1 70 175 (by norm_num) (by norm_num)⟩

/-- C5: `generate_diet_plan`'s calorie goal is `max(1200, bmr−500)` for
Overweight/Obese, `bmr+300` for Underweight, `bmr+200` otherwise, and the
macro split is the fixed default, replaced by the higher-protein split
exactly when age ≥ 50. -/
theorem claim5_diet_plan :
    ∀ (c : String) (bmr age : ℤ),
      (BMI.generate_diet_plan c bmr age).goal_kcal =
        (if c = "Overweight" ∨ c = "Obese" then max 1200 (bmr - 500)
         else if c = "Underweight" then bmr + 300 else bmr + 200) ∧
      (BMI.generate_diet_plan c bmr age).macros =
        (if 50 ≤ age then
          "Protein: 30%, Carbs: 40%, Fats: 30% (Higher protein supports muscle mass retention)"
         else "Protein: 25%, Carbs: 45%, Fats: 30%") := by
  intro c bmr age
  unfold BMI.generate_diet_plan
  split_ifs <;> simp_all

/-- C6: `_save_history` appends the entry to the end of the in-memory
list; the storage-error notification fires exactly when the write fails;
the file is rewritten with the full list on success and left as it was on
failure — the append is never rolled back. -/
theorem claim6_append :
    ∀ (entry : BMI.HistoryEntry) (s : BMI.StoreState) (writeOk : Bool),
      (BMI.save_history entry s writeOk).1.history = s.history ++ [entry] ∧
      ((BMI.save_history entry s writeOk).2 = true ↔ writeOk = false) ∧
      (BMI.save_history entry s writeOk).1.disk =
        (if writeOk then BMI.Disk.content (s.history ++ [entry]) else s.disk) := by
  intro entry s writeOk
  cases writeOk <;> simp [BMI.save_history]

/-- C7: `_load_history` returns the persisted list on a well-formed file
and the empty list when the file is absent, empty, unreadable or
malformed. -/
theorem claim7_load :
    (∀ es, BMI.load_history (BMI.Disk.content es) = es) ∧
    BMI.load_history BMI.Disk.absent = [] ∧
    BMI.load_history BMI.Disk.emptyFile = [] ∧
    BMI.load_history BMI.Disk.unreadable = [] ∧
    BMI.load_history BMI.Disk.malformed = [] :=
  ⟨fun _ => rfl, rfl, rfl, rfl, rfl⟩

/-- After appending `es` one at a time with every write succeeding, the
in-memory list has grown by `es`, and the file holds the full final list
(unchanged when nothing was appended). -/
theorem save_all_spec (es : List BMI.HistoryEntry) (s : BMI.StoreState) :
    (BMI.save_all es s).history = s.history ++ es ∧
    (BMI.save_all es s).disk =
      (if es = [] then s.disk else BMI.Disk.content (s.history ++ es)) := by
  induction es generalizing s with
  | nil => simp [BMI.save_all]
  | cons e rest ih =>
    have hstep : BMI.save_all (e :: rest) s =
        BMI.save_all rest ⟨s.history ++ [e], BMI.Disk.content (s.history ++ [e])⟩ := rfl
    rw [hstep]
    obtain ⟨h1, h2⟩ := ih ⟨s.history ++ [e], BMI.Disk.content (s.history ++ [e])⟩
    refine ⟨by rw [h1]; simp, ?_⟩
    rw [h2]
    by_cases hr : rest = []
    · subst hr; simp
    · simp [hr]

/-- C8: appending a sequence of entries (each write persisting) and then
loading the persisted file back — a simulated restart — returns exactly
the appended entries in insertion order; more generally, the prior
persisted entries followed by the appended ones. -/
theorem claim8_round_trip :
    (∀ entries : List BMI.HistoryEntry,
        BMI.load_history
            (BMI.save_all entries ⟨[], BMI.Disk.absent⟩).disk = entries) ∧
    (∀ (entries : List BMI.HistoryEntry) (d : BMI.Disk),
        BMI.load_history
            (BMI.save_all entries ⟨BMI.load_history d, d⟩).disk =
          BMI.load_history d ++ entries) := by
  have key : ∀ (entries : List BMI.HistoryEntry) (d : BMI.Disk),
      BMI.load_history (BMI.save_all entries ⟨BMI.load_history d, d⟩).disk =
        BMI.load_history d ++ entries := by
    intro entries d
    obtain ⟨-, h2⟩ := save_all_spec entries ⟨BMI.load_history d, d⟩
    rw [h2]
    by_cases he : entries = []
    · subst he; simp
    · simp [he, BMI.load_history]
  exact ⟨fun entries => key entries BMI.Disk.absent, key⟩

/-- `round` is the identity on values that are already whole. -/
theorem pyRound_natCast (n : ℕ) : BMI.pyRound (n : ℚ) = n := by
  unfold BMI.pyRound
  rw [Int.floor_natCast]
  norm_num

/-- `f"{x:.2f}"` on a whole non-negative value renders its hundredths. -/
theorem fmt2_natCast (n : ℕ) : BMI.fmt2 (n : ℚ) = BMI.fmt2Nat (n * 100) := by
  unfold BMI.fmt2
  rw [if_neg (not_lt.mpr (Nat.cast_nonneg n))]
  have hcast : (n : ℚ) * 100 = ((n * 100 : ℕ) : ℚ) := by push_cast; ring
  rw [hcast, pyRound_natCast, Int.toNat_natCast]

/-- C9: `_calculate_statistics` returns the `'N/A'` sentinel set with
count 0 on an empty history; on any non-empty history it returns the
entry count, the mean of the `bmi` fields formatted to two decimals, and
the minimum and maximum `bmi` likewise; over bmi values [20, 22, 24] it
returns count 3, avg "22.00", min "20.00", max "24.00". -/
theorem claim9_statistics :
    BMI.calculate_statistics [] = ⟨0, "N/A", "N/A", "N/A"⟩ ∧
    (∀ (history : List BMI.HistoryEntry) (m M : ℚ),
        history ≠ [] →
        (history.map (·.bmi)).min? = some m →
        (history.map (·.bmi)).max? = some M →
        (BMI.calculate_statistics history).count = history.length ∧
        (BMI.calculate_statistics history).avg_bmi =
          BMI.fmt2 ((history.map (·.bmi)).sum / (history.length : ℚ)) ∧
        (BMI.calculate_statistics history).min_bmi = BMI.fmt2 m ∧
        (BMI.calculate_statistics history).max_bmi = BMI.fmt2 M) ∧
    (∀ e1 e2 e3 : BMI.HistoryEntry,
        e1.bmi = 20 → e2.bmi = 22 → e3.bmi = 24 →
        BMI.calculate_statistics [e1, e2, e3] = ⟨3, "22.00", "20.00", "24.00"⟩) := by
  refine ⟨rfl, ?_, ?_⟩
  · intro history m M hne hm hM
    cases history with
    | nil => exact absurd rfl hne
    | cons e rest =>
      have hmin : ((e :: rest).map (·.bmi)).min? =
          some ((rest.map (·.bmi)).foldl min e.bmi) := rfl
      have hmax : ((e :: rest).map (·.bmi)).max? =
          some ((rest.map (·.bmi)).foldl max e.bmi) := rfl
      rw [hmin] at hm
      rw [hmax] at hM
      injection hm with hm
      injection hM with hM
      refine ⟨by simp [BMI.calculate_statistics], ?_, ?_, ?_⟩
      · simp [BMI.calculate_statistics]
      · rw [← hm]; simp [BMI.calculate_statistics]
      · rw [← hM]; simp [BMI.calculate_statistics]
  · intro e1 e2 e3 h1 h2 h3
    have h20 : BMI.fmt2 (20 : ℚ) = "20.00" := by
      have h := fmt2_natCast 20
      norm_num at h
      rw [h]; decide
    have h22 : BMI.fmt2 (22 : ℚ) = "22.00" := by
      have h := fmt2_natCast 22
      norm_num at h
      rw [h]; decide
    have h24 : BMI.fmt2 (24 : ℚ) = "24.00" := by
      have h := fmt2_natCast 24
      norm_num at h
      rw [h]; decide
    simp only [BMI.calculate_statistics, List.map, h1, h2, h3, BMI.Stats.mk.injEq,
      List.sum_cons, List.sum_nil, List.length_cons, List.length_nil, List.foldl]
    norm_num [min_def, max_def]
    exact ⟨h22, h20, h24⟩

/-- C9 witness: `claim9_statistics` instantiated on the concrete
three-entry history with bmi values 20, 22 and 24. -/
theorem claim9_witness :
    BMI.calculate_statistics
        [⟨"Ada", "2024-01-01 10:00", 58, 170, 20, "Normal Weight"⟩,
         ⟨"Ben", "2024-01-02 10:00", 64, 170, 22, "Normal Weight"⟩,
         ⟨"Cam", "2024-01-03 10:00", 70, 170, 24, "Normal Weight"⟩] =
      ⟨3, "22.00", "20.00", "24.00"⟩ :=
  claim9_statistics.2.2 _ _ _ rfl rfl rfl

/-- C10: `calculate_ideal_weight_range` validates nothing: it is total
and returns the formula pair even for non-positive heights — (0, 0) at
height 0 — while `calculate_bmi` rejects every non-positive height. -/
theorem claim10_total_range :
    BMI.calculate_ideal_weight_range 0 = (0, 0) ∧
    (∀ h : ℚ, h ≤ 0 →
        BMI.calculate_ideal_weight_range h =
          (BMI.roundTo 1 ((18.5 : ℚ) * (h / 100) ^ 2),
           BMI.roundTo 1 ((24.9 : ℚ) * (h / 100) ^ 2))) ∧
    (∀ w h : ℚ, h ≤ 0 → BMI.calculate_bmi w h = none) := by
  refine ⟨?_, fun h _ => rfl, ?_⟩
  · norm_num [BMI.calculate_ideal_weight_range, BMI.roundTo, BMI.pyRound, Prod.ext_iff]
  · intro w h hh
    unfold BMI.calculate_bmi
    rw [if_pos (Or.inl hh)]

/-- C10 witness: `claim10_total_range` instantiated at height −5 cm
(returns the rounded formula pair, no failure) and at (70, −5) for
`calculate_bmi` (rejected). -/
theorem claim10_witness :
    ((-5 : ℚ) ≤ 0) ∧
    BMI.calculate_ideal_weight_range (-5) =
      (BMI.roundTo 1 ((18.5 : ℚ) * ((-5 : ℚ) / 100) ^ 2),
       BMI.roundTo 1 ((24.9 : ℚ) * ((-5 : ℚ) / 100) ^ 2)) ∧
    BMI.calculate_bmi 70 (-5) = none :=
  ⟨by norm_num, claim10_total_range.2.1 (-5) (by norm_num),
    claim10_total_range.2.2 70 (-5) (by norm_num)⟩
